import Mathlib

/-!
Shallow embedding of the reconciliation logic of terraform-provider-etcd:
the key/value resource operations `KvResourceCreate`, `KvResourceRead` and
`KvResourceDelete`, together with a model of the external etcd
collaborator (the store, its conditional transactions and its lookups) and
of the Terraform resource data that each operation reads and updates.

The etcd client is an external service: the outcome of each network round
trip (healthy, cancelled context, exceeded deadline, an etcd error such as
ErrEmptyKey, or a transport failure) is an explicit input `StoreOutcome`
of each operation. Under a healthy outcome the store model applies the
transaction semantics of etcd: the `If` condition is evaluated atomically,
the `Then` operation runs only when the condition holds, and `Commit`
reports a failed condition through the `Succeeded` flag with NO error.
-/

set_option autoImplicit false

namespace EtcdProvider

/-- Errors an etcd client call can return, as the Go code distinguishes
them by identity in its `switch err` statement: `context.Canceled`,
`context.DeadlineExceeded`, `rpctypes.ErrEmptyKey`, and any other error
value (falling into the `default` branch). -/
inductive EtcdErr where
  | canceled
  | deadlineExceeded
  | emptyKey
  | other (msg : String)
deriving DecidableEq, Repr

/-- The `Error()` string of each modelled Go error value. -/
def EtcdErr.message : EtcdErr → String
  | .canceled => "context canceled"
  | .deadlineExceeded => "context deadline exceeded"
  | .emptyKey => "etcdserver: key is not provided"
  | .other m => m

/-- Outcome of one network round trip against the etcd endpoint: either
the request reaches the store and is executed there, or the call returns
one of the client errors. -/
inductive StoreOutcome where
  | ok
  | err (e : EtcdErr)
deriving DecidableEq, Repr

/-- One record of an etcd range response (`response.Kvs` entry): the key
and the value observed in the store. -/
structure KeyValue where
  key : String
  value : String
deriving DecidableEq, Repr

/-- The keyspace of the store: an association of keys to values. -/
abbrev Store := List (String × String)

/-- Observed value of a key in the store, if present. -/
def storeGet : Store → String → Option String
  | [], _ => none
  | (k, v) :: rest, key => if k = key then some v else storeGet rest key

/-- `OpPut(key, value)`: set the key to the value. -/
def storePut (st : Store) (key value : String) : Store :=
  (key, value) :: st.filter (fun p => p.1 != key)

/-- `OpDelete(key)`: remove the key. -/
def storeDel (st : Store) (key : String) : Store :=
  st.filter (fun p => p.1 != key)

/-- The record list of a range response for a single key:
one record when the key is present, empty when it is absent. -/
def kvsOf (st : Store) (key : String) : List KeyValue :=
  match storeGet st key with
  | some v => [⟨key, v⟩]
  | none => []

/-- The shared client connection as each operation sees it, plus counters
recording how many transaction commits and lookups were issued on it, so
that theorems can speak about whether a network call happened. -/
structure ClientState where
  store : Store
  txnCalls : Nat
  getCalls : Nat
deriving DecidableEq, Repr

/-- `kvc.Txn(ctx).If(clientv3util.KeyMissing(key)).Then(clientv3.OpPut(key,
value)).Commit()`: under a healthy outcome the put runs only when the key
is absent; a present key makes the condition fail, which etcd reports as
`Succeeded = false` with no error. An error outcome leaves the store
untouched. Returns the client state, the commit error, and `Succeeded`. -/
def txnPutIfKeyMissing (o : StoreOutcome) (cs : ClientState) (key value : String) :
    ClientState × Option EtcdErr × Bool :=
  match o with
  | .err e => ({ cs with txnCalls := cs.txnCalls + 1 }, some e, false)
  | .ok =>
    match storeGet cs.store key with
    | none =>
      ({ cs with store := storePut cs.store key value, txnCalls := cs.txnCalls + 1 },
       none, true)
    | some _ => ({ cs with txnCalls := cs.txnCalls + 1 }, none, false)

/-- `kvc.Txn(ctx).If(clientv3util.KeyExists(key)).Then(clientv3.OpDelete(key)).Commit()`:
under a healthy outcome the delete runs only when the key is present; an
absent key makes the condition fail, reported as `Succeeded = false` with
no error. -/
def txnDeleteIfKeyExists (o : StoreOutcome) (cs : ClientState) (key : String) :
    ClientState × Option EtcdErr × Bool :=
  match o with
  | .err e => ({ cs with txnCalls := cs.txnCalls + 1 }, some e, false)
  | .ok =>
    match storeGet cs.store key with
    | some _ =>
      ({ cs with store := storeDel cs.store key, txnCalls := cs.txnCalls + 1 },
       none, true)
    | none => ({ cs with txnCalls := cs.txnCalls + 1 }, none, false)

/-- `client.Get(ctx, key)`: a direct lookup returning the observed
records, or the client error of the round trip. -/
def etcdGet (o : StoreOutcome) (cs : ClientState) (key : String) :
    ClientState × Except EtcdErr (List KeyValue) :=
  let cs' := { cs with getCalls := cs.getCalls + 1 }
  match o with
  | .ok => (cs', Except.ok (kvsOf cs.store key))
  | .err e => (cs', Except.error e)

/-- A Terraform attribute value: the declared attributes are strings;
`KvResourceRead` stores the raw record list of the range response into an
attribute (`d.Set("key", response.Kvs)`). -/
inductive AttrVal where
  | str (s : String)
  | records (kvs : List KeyValue)
deriving DecidableEq, Repr

/-- The `.(string)` type assertion of `d.Get(...)`: succeeds exactly on a
string-typed attribute value. -/
def AttrVal.asString : AttrVal → Option String
  | .str s => some s
  | .records _ => none

/-- Severity of a Terraform diagnostic. -/
inductive Severity where
  | error
  | warning
deriving DecidableEq, Repr

/-- One entry of `diag.Diagnostics`. -/
structure Diagnostic where
  severity : Severity
  summary : String
deriving DecidableEq, Repr

/-- `diag.Diagnostics`: the list of diagnostics an operation returns;
empty means success. -/
abbrev Diagnostics := List Diagnostic

/-- `diag.FromErr(err)`: a single error diagnostic carrying the message
of the error. -/
def fromErr (msg : String) : Diagnostics :=
  [⟨Severity.error, msg⟩]

/-- `schema.ResourceData` as the key/value resource uses it: the resource
id (`d.Id()`, set by `d.SetId`), and the `key` and `value` attributes. -/
structure ResourceData where
  id : String
  key : AttrVal
  value : AttrVal
deriving DecidableEq, Repr

/-- The message the `switch err` of `KvResourceCreate` builds for each
error value (`fmt.Errorf` with the `%v` of the error appended). -/
def createErrMsg : EtcdErr → String
  | .canceled => "ctx is canceled by another routine: " ++ EtcdErr.canceled.message
  | .deadlineExceeded =>
      "ctx is attached with a deadline is exceeded: " ++ EtcdErr.deadlineExceeded.message
  | .emptyKey => "client-side error: " ++ EtcdErr.emptyKey.message
  | .other m => "bad cluster endpoints, which are not etcd servers: " ++ m

/-- `KvResourceCreate`: reads the `key` and `value` string attributes,
commits the key-missing-conditioned put transaction, classifies a commit
error through `createErrMsg`, and on a nil error calls `d.SetId(key)` and
returns empty diagnostics. The `Succeeded` flag of the transaction
response is ignored, as in the Go code (`_, err := ...Commit()`).
`none` models the Go panic of a failing `.(string)` type assertion. -/
def KvResourceCreate (o : StoreOutcome) (d : ResourceData) (cs : ClientState) :
    Option (ResourceData × ClientState × Diagnostics) := do
  let key ← d.key.asString
  let value ← d.value.asString
  let (cs', commitErr, _succeeded) := txnPutIfKeyMissing o cs key value
  match commitErr with
  | some e => some (d, cs', fromErr (createErrMsg e))
  | none => some ({ d with id := key }, cs', [])

/-- `KvResourceRead`: reads the `key` string attribute, performs the
lookup, returns `diag.FromErr(err)` on error, and otherwise executes
`d.Set("key", response.Kvs)` and returns nil diagnostics. The id is never
touched and the `value` attribute is never written. -/
def KvResourceRead (o : StoreOutcome) (d : ResourceData) (cs : ClientState) :
    Option (ResourceData × ClientState × Diagnostics) := do
  let key ← d.key.asString
  let (cs', res) := etcdGet o cs key
  match res with
  | .error e => some (d, cs', fromErr e.message)
  | .ok kvs => some ({ d with key := AttrVal.records kvs }, cs', [])

/-- `KvResourceDelete`: reads the `key` string attribute, commits the
key-exists-conditioned delete transaction, returns `diag.FromErr(err)` on
a commit error, and otherwise calls `d.SetId("")` and returns nil
diagnostics. As in create, the `Succeeded` flag is ignored. -/
def KvResourceDelete (o : StoreOutcome) (d : ResourceData) (cs : ClientState) :
    Option (ResourceData × ClientState × Diagnostics) := do
  let key ← d.key.asString
  let (cs', commitErr, _succeeded) := txnDeleteIfKeyExists o cs key
  match commitErr with
  | some e => some (d, cs', fromErr e.message)
  | none => some ({ d with id := "" }, cs', [])

/-- Two deletes in sequence on the same declared resource, threading the
resource data and the client state from the first call into the second;
the result is the diagnostics of the SECOND call. -/
def kvDeleteTwice (o1 o2 : StoreOutcome) (d : ResourceData) (cs : ClientState) :
    Option Diagnostics := do
  let (d1, cs1, _) ← KvResourceDelete o1 d cs
  let (_, _, diags2) ← KvResourceDelete o2 d1 cs1
  pure diags2

/-- The user subsystem of the store, with a counter of issued
create-user network calls. -/
structure UserClientState where
  users : List (String × String)
  createUserCalls : Nat
deriving DecidableEq, Repr

/-- The declared user resource: id, `username` and `password`. -/
structure UserData where
  id : String
  username : String
  password : String
deriving DecidableEq, Repr

/-- Modelled from the spec: the source file of the user resource is not
under src/ (only docs/resources/user.md is). Spec 4.2: Validate(password)
fails with a policy-violation classification if length is at most 9
characters; user.md: "password length should be > 9 characters". -/
def validatePassword (p : String) : Bool :=
  9 < p.length

/-- Modelled from the spec: the source file of the user resource is not
under src/. Spec 4.2: validation runs before any network call; Create
issues a create-user operation against the identity subsystem of the
store and on success the resource identity becomes the username. -/
def UserResourceCreate (d : UserData) (cs : UserClientState) :
    UserData × UserClientState × Diagnostics :=
  if validatePassword d.password then
    ({ d with id := d.username },
     { cs with
        users := (d.username, d.password) :: cs.users,
        createUserCalls := cs.createUserCalls + 1 },
     [])
  else
    (d, cs, fromErr ("invalid input: password length should be > 9 characters"))

theorem storeGet_storeDel_self (st : Store) (key : String) :
    storeGet (storeDel st key) key = none := by
  induction st with
  | nil => rfl
  | cons p rest ih =>
    by_cases h : p.1 = key
    · simp [storeDel, List.filter, h, bne_self_eq_false] at *
      exact ih
    · simp only [storeDel, List.filter] at *
      rw [show (p.1 != key) = true by simp [bne, h]]
      simpa [storeGet, h] using ih

theorem storeGet_storePut_self (st : Store) (key value : String) :
    storeGet (storePut st key value) key = some value := by
  simp [storePut, storeGet]

theorem badCluster_append_ne (m s : String) (h : s.data.head? ≠ some 'b') :
    ("bad cluster endpoints, which are not etcd servers: " ++ m) ≠ s := by
  intro he
  apply h
  rw [← he]
  simp [String.data_append]

/-- C1: the claim states that Create on a present key fails with a
TransactionConflict diagnostic. Evaluation of the embedded code at a
store holding "k" shows the opposite: the failed condition of the commit
yields no error, the code returns EMPTY diagnostics (a silent success),
sets the id, and the stored value "v1" is left unchanged. -/
theorem c1_create_on_existing_key_silently_succeeds :
    KvResourceCreate .ok ⟨"", .str "k", .str "v2"⟩ ⟨[("k", "v1")], 0, 0⟩
      = some (⟨"k", .str "k", .str "v2"⟩, ⟨[("k", "v1")], 1, 0⟩, []) := by
  decide

/-- C2: Delete is idempotent: for every declared key, running the delete
twice in sequence under healthy round trips returns empty diagnostics on
the second call, because the failed key-exists condition commits with no
error and the code treats the nil error as success. -/
theorem c2_delete_idempotent (k v i : String) (cs : ClientState) :
    kvDeleteTwice .ok .ok ⟨i, .str k, .str v⟩ cs = some [] := by
  cases h : storeGet cs.store k with
  | none =>
      simp [kvDeleteTwice, KvResourceDelete, txnDeleteIfKeyExists, AttrVal.asString, h]
  | some w =>
      simp [kvDeleteTwice, KvResourceDelete, txnDeleteIfKeyExists, AttrVal.asString, h,
            storeGet_storeDel_self]

/-- C3: for a key absent from the store, Create(k, v) succeeds with
identity k, and the subsequent Read observes exactly the record (k, v)
in the store while the value attribute stays v. -/
theorem c3_create_then_read (k v i : String) (cs : ClientState)
    (h : storeGet cs.store k = none) :
    KvResourceCreate .ok ⟨i, .str k, .str v⟩ cs
      = some (⟨k, .str k, .str v⟩,
              ⟨storePut cs.store k v, cs.txnCalls + 1, cs.getCalls⟩, [])
    ∧ KvResourceRead .ok ⟨k, .str k, .str v⟩
        ⟨storePut cs.store k v, cs.txnCalls + 1, cs.getCalls⟩
      = some (⟨k, .records [⟨k, v⟩], .str v⟩,
              ⟨storePut cs.store k v, cs.txnCalls + 1, cs.getCalls + 1⟩, []) := by
  constructor
  · simp [KvResourceCreate, txnPutIfKeyMissing, AttrVal.asString, h]
  · simp [KvResourceRead, etcdGet, kvsOf, AttrVal.asString, storeGet_storePut_self]

theorem c3_create_then_read_witness :
    KvResourceCreate .ok ⟨"", .str "k", .str "v"⟩ ⟨[], 0, 0⟩
      = some (⟨"k", .str "k", .str "v"⟩, ⟨storePut [] "k" "v", 0 + 1, 0⟩, [])
    ∧ KvResourceRead .ok ⟨"k", .str "k", .str "v"⟩ ⟨storePut [] "k" "v", 0 + 1, 0⟩
      = some (⟨"k", .records [⟨"k", "v"⟩], .str "v"⟩,
              ⟨storePut [] "k" "v", 0 + 1, 0 + 1⟩, []) :=
  c3_create_then_read "k" "v" "" ⟨[], 0, 0⟩ rfl

/-- C4: the claim states that a Read finding the key absent drops the
resource from tracked state by clearing its identity. Evaluation of the
embedded code shows otherwise: Read on an absent key returns empty
diagnostics and leaves the id at "k" (the code never calls SetId on the
read path), writing only the empty record list into the key attribute. -/
theorem c4_read_absent_key_keeps_identity :
    KvResourceRead .ok ⟨"k", .str "k", .str "v"⟩ ⟨[], 0, 0⟩
      = some (⟨"k", .records [], .str "v"⟩, ⟨[], 0, 1⟩, []) := by
  decide

/-- C5: every failing Create classifies its commit error through the
four-way switch, returning exactly the message of the matched class, and
the four classes carry pairwise distinct messages: cancelled context,
exceeded deadline, empty key (client-side), and the bad-cluster default
branch, for every underlying transport message m. -/
theorem c5_create_error_classification (e : EtcdErr) (i k v m : String) (cs : ClientState) :
    KvResourceCreate (.err e) ⟨i, .str k, .str v⟩ cs
      = some (⟨i, .str k, .str v⟩, ⟨cs.store, cs.txnCalls + 1, cs.getCalls⟩,
              fromErr (createErrMsg e))
    ∧ createErrMsg .canceled ≠ createErrMsg .deadlineExceeded
    ∧ createErrMsg .canceled ≠ createErrMsg .emptyKey
    ∧ createErrMsg .deadlineExceeded ≠ createErrMsg .emptyKey
    ∧ createErrMsg (.other m) ≠ createErrMsg .canceled
    ∧ createErrMsg (.other m) ≠ createErrMsg .deadlineExceeded
    ∧ createErrMsg (.other m) ≠ createErrMsg .emptyKey := by
  refine ⟨rfl, by decide, by decide, by decide, ?_, ?_, ?_⟩
  all_goals exact badCluster_append_ne m _ (by decide)

theorem c5_create_error_classification_witness :
    KvResourceCreate (.err (.other "connection refused")) ⟨"", .str "k", .str "v"⟩ ⟨[], 0, 0⟩
      = some (⟨"", .str "k", .str "v"⟩, ⟨[], 0 + 1, 0⟩,
              fromErr (createErrMsg (.other "connection refused")))
    ∧ createErrMsg .canceled ≠ createErrMsg .deadlineExceeded
    ∧ createErrMsg .canceled ≠ createErrMsg .emptyKey
    ∧ createErrMsg .deadlineExceeded ≠ createErrMsg .emptyKey
    ∧ createErrMsg (.other "boom") ≠ createErrMsg .canceled
    ∧ createErrMsg (.other "boom") ≠ createErrMsg .deadlineExceeded
    ∧ createErrMsg (.other "boom") ≠ createErrMsg .emptyKey :=
  c5_create_error_classification (.other "connection refused") "" "k" "v" "boom" ⟨[], 0, 0⟩

/-- C6 counterexample: the claim states that an empty key is rejected
before any network call, with no store transaction issued. At the
concrete input key = "" the embedded Create issues the commit (the
transaction counter moves from 0), so the call count is not 0. -/
theorem c6_counterexample :
    (KvResourceCreate (.err .emptyKey) ⟨"", .str "", .str "v"⟩ ⟨[], 0, 0⟩).map
        (fun r => r.2.1.txnCalls) ≠ some 0 := by
  decide

/-- C6 amended: for a Create with an empty key the transaction IS
issued; the empty-key failure is detected from the ErrEmptyKey error the
round trip returns and is then reported as the client-side-error
diagnostic, after the network call rather than before it. -/
theorem c6_empty_key_reported_after_txn (i v : String) (cs : ClientState) :
    KvResourceCreate (.err .emptyKey) ⟨i, .str "", .str v⟩ cs
      = some (⟨i, .str "", .str v⟩, ⟨cs.store, cs.txnCalls + 1, cs.getCalls⟩,
              fromErr (createErrMsg .emptyKey)) :=
  rfl

/-- C7: a password of length at most 9 makes the user Create fail with
the invalid-input policy diagnostic and leaves the user client state
untouched (no create-user network call), while every password longer
than 9 characters passes the validation. -/
theorem c7_password_policy (u p i q : String) (cs : UserClientState)
    (hp : p.length ≤ 9) (hq : 9 < q.length) :
    UserResourceCreate ⟨i, u, p⟩ cs
      = (⟨i, u, p⟩, cs,
         fromErr ("invalid input: password length should be > 9 characters"))
    ∧ validatePassword q = true := by
  constructor
  · have hfalse : validatePassword p = false := by
      simp [validatePassword]
      omega
    simp [UserResourceCreate, hfalse]
  · simp [validatePassword]
    exact hq

theorem c7_password_policy_witness :
    UserResourceCreate ⟨"", "alice", "short"⟩ ⟨[], 0⟩
      = (⟨"", "alice", "short"⟩, ⟨[], 0⟩,
         fromErr ("invalid input: password length should be > 9 characters"))
    ∧ validatePassword "longpassword" = true :=
  c7_password_policy "alice" "short" "" "longpassword" ⟨[], 0⟩ (by decide) (by decide)

/-- C8: the claim states that identity is never assigned when the create
did not actually put the key. Evaluation at a store already holding "a"
shows the embedded code assigning id = "a" anyway: the failed condition
commits with no error, the put does not run (the store keeps "old"), and
the nil-error branch still calls SetId. -/
theorem c8_identity_set_without_put :
    KvResourceCreate .ok ⟨"", .str "a", .str "new"⟩ ⟨[("a", "old")], 0, 0⟩
      = some (⟨"a", .str "a", .str "new"⟩, ⟨[("a", "old")], 1, 0⟩, []) := by
  decide

/-- C9: for each of Create, Read and Delete, the outcome under a
cancelled context differs from the outcome under an exceeded deadline:
Create wraps the two through its switch into two distinct named
messages, and Read and Delete pass the two distinct error messages of
the signals through FromErr unchanged. -/
theorem c9_cancel_vs_deadline_distinguishable (i k v : String) (cs : ClientState) :
    KvResourceCreate (.err .canceled) ⟨i, .str k, .str v⟩ cs
      = some (⟨i, .str k, .str v⟩, ⟨cs.store, cs.txnCalls + 1, cs.getCalls⟩,
              fromErr (createErrMsg .canceled))
    ∧ KvResourceCreate (.err .deadlineExceeded) ⟨i, .str k, .str v⟩ cs
      = some (⟨i, .str k, .str v⟩, ⟨cs.store, cs.txnCalls + 1, cs.getCalls⟩,
              fromErr (createErrMsg .deadlineExceeded))
    ∧ fromErr (createErrMsg .canceled) ≠ fromErr (createErrMsg .deadlineExceeded)
    ∧ KvResourceRead (.err .canceled) ⟨i, .str k, .str v⟩ cs
      = some (⟨i, .str k, .str v⟩, ⟨cs.store, cs.txnCalls, cs.getCalls + 1⟩,
              fromErr (EtcdErr.canceled.message))
    ∧ KvResourceRead (.err .deadlineExceeded) ⟨i, .str k, .str v⟩ cs
      = some (⟨i, .str k, .str v⟩, ⟨cs.store, cs.txnCalls, cs.getCalls + 1⟩,
              fromErr (EtcdErr.deadlineExceeded.message))
    ∧ KvResourceDelete (.err .canceled) ⟨i, .str k, .str v⟩ cs
      = some (⟨i, .str k, .str v⟩, ⟨cs.store, cs.txnCalls + 1, cs.getCalls⟩,
              fromErr (EtcdErr.canceled.message))
    ∧ KvResourceDelete (.err .deadlineExceeded) ⟨i, .str k, .str v⟩ cs
      = some (⟨i, .str k, .str v⟩, ⟨cs.store, cs.txnCalls + 1, cs.getCalls⟩,
              fromErr (EtcdErr.deadlineExceeded.message))
    ∧ fromErr (EtcdErr.canceled.message) ≠ fromErr (EtcdErr.deadlineExceeded.message) := by
  exact ⟨rfl, rfl, by decide, rfl, rfl, rfl, rfl, by decide⟩

theorem c9_cancel_vs_deadline_distinguishable_witness :
    KvResourceCreate (.err .canceled) ⟨"", .str "k", .str "v"⟩ ⟨[], 0, 0⟩
      = some (⟨"", .str "k", .str "v"⟩, ⟨[], 0 + 1, 0⟩, fromErr (createErrMsg .canceled))
    ∧ KvResourceCreate (.err .deadlineExceeded) ⟨"", .str "k", .str "v"⟩ ⟨[], 0, 0⟩
      = some (⟨"", .str "k", .str "v"⟩, ⟨[], 0 + 1, 0⟩,
              fromErr (createErrMsg .deadlineExceeded))
    ∧ fromErr (createErrMsg .canceled) ≠ fromErr (createErrMsg .deadlineExceeded)
    ∧ KvResourceRead (.err .canceled) ⟨"", .str "k", .str "v"⟩ ⟨[], 0, 0⟩
      = some (⟨"", .str "k", .str "v"⟩, ⟨[], 0, 0 + 1⟩, fromErr (EtcdErr.canceled.message))
    ∧ KvResourceRead (.err .deadlineExceeded) ⟨"", .str "k", .str "v"⟩ ⟨[], 0, 0⟩
      = some (⟨"", .str "k", .str "v"⟩, ⟨[], 0, 0 + 1⟩,
              fromErr (EtcdErr.deadlineExceeded.message))
    ∧ KvResourceDelete (.err .canceled) ⟨"", .str "k", .str "v"⟩ ⟨[], 0, 0⟩
      = some (⟨"", .str "k", .str "v"⟩, ⟨[], 0 + 1, 0⟩, fromErr (EtcdErr.canceled.message))
    ∧ KvResourceDelete (.err .deadlineExceeded) ⟨"", .str "k", .str "v"⟩ ⟨[], 0, 0⟩
      = some (⟨"", .str "k", .str "v"⟩, ⟨[], 0 + 1, 0⟩,
              fromErr (EtcdErr.deadlineExceeded.message))
    ∧ fromErr (EtcdErr.canceled.message) ≠ fromErr (EtcdErr.deadlineExceeded.message) :=
  c9_cancel_vs_deadline_distinguishable "" "k" "v" ⟨[], 0, 0⟩

/-- C10: every Read that returns without error writes the record list of
the range response into the key attribute, overwriting the declared key
string, while the value attribute and the id are exactly what they were
before the call; the only client-state change is the lookup counter. -/
theorem c10_read_success_frame (i k v : String) (cs : ClientState) :
    KvResourceRead .ok ⟨i, .str k, .str v⟩ cs
      = some (⟨i, .records (kvsOf cs.store k), .str v⟩,
              ⟨cs.store, cs.txnCalls, cs.getCalls + 1⟩, []) :=
  rfl

end EtcdProvider
